import Mathlib

/-!
Shallow embedding of the per-connection HTTP/CONNECT proxy engine
(src/proxy_http.go and src/proxy_connect.go).

Go's header maps are iterated in an unspecified order, so a header set is
embedded as an association list whose list order is the iteration order;
quantifying over the list order quantifies over Go's possible iteration
orders.  Errors are embedded as an `Option GoErr` (Go's `nil` error is
`none`).  The effectful CONNECT machinery is embedded as pure functions
that also return the list of externally observable events (dial attempts,
responses written downstream, buffer Get/Put, tunnel phases) in the order
in which the source performs them.
-/

/-- Header map embedding: association list of key/values in Go map
iteration order.  Operations mirror `net/textproto.MIMEHeader`. -/
abbrev Header := List (String × List String)

/-- Add appends a value to the entry for the key, creating it if needed
(`textproto.MIMEHeader.Add`). -/
def hdrAdd (h : Header) (k v : String) : Header :=
  match h with
  | [] => [(k, [v])]
  | (k2, vs) :: rest =>
    if k2 == k then (k2, vs ++ [v]) :: rest else (k2, vs) :: hdrAdd rest k v

/-- Del removes the entry for the key (`textproto.MIMEHeader.Del`). -/
def hdrDel (h : Header) (k : String) : Header :=
  List.filter (fun e => e.1 != k) h

/-- Set replaces the entry for the key with a single value
(`textproto.MIMEHeader.Set`, map semantics: position is immaterial). -/
def hdrSet (h : Header) (k v : String) : Header :=
  hdrDel h k ++ [(k, [v])]

/-- Lookup of the value list stored under a key (map indexing). -/
def hdrLookup (h : Header) (k : String) : Option (List String) :=
  Option.map (fun e => e.2) (List.find? (fun e => e.1 == k) h)

/-- Get returns the first value for the key, or the empty string
(`textproto.MIMEHeader.Get`). -/
def hdrGet (h : Header) (k : String) : String :=
  match hdrLookup h k with
  | some (v :: _) => v
  | _ => ""

/-- Embeds `contains` of src/proxy_http.go: linear scan for an exact
string match. -/
def contains (k : String) (s : List String) : Bool :=
  s.any (fun h => k == h)

/-- One step of the `for k, vv := range src` loop body of
`copyHeadersForForwarding` (src/proxy_http.go:352-376): the state is the
destination header built so far together with the `extraHopByHopHeaders`
slice. -/
def copyHeadersStep (acc : Header × List String) (kv : String × List String) :
    Header × List String :=
  match kv.1 with
  | "Connection" => (acc.1, kv.2)
  | "Keep-Alive" => acc
  | "Proxy-Authenticate" => acc
  | "Proxy-Authorization" => acc
  | "TE" => acc
  | "Trailers" => acc
  | "Transfer-Encoding" => acc
  | "Upgrade" => acc
  | _ =>
    if contains kv.1 acc.2 then acc
    else (kv.2.foldl (fun d v => hdrAdd d kv.1 v) acc.1, acc.2)

/-- Embeds `copyHeadersForForwarding` (src/proxy_http.go:352-376), the
source header given in iteration order; `extraHopByHopHeaders` starts as
the nil slice. -/
def copyHeadersForForwarding (src : Header) : Header :=
  (src.foldl copyHeadersStep ([], [])).1

/-- Request embedding: the fields of `http.Request` that
`prepareRequest` reads or writes. -/
structure PRequest where
  header : Header
  host : String
  urlScheme : String
  urlHost : String
  proto : String
  protoMajor : Nat
  protoMinor : Nat
  close : Bool

/-- Embeds `prepareRequest` (src/proxy_http.go:290-323): force HTTP/1.1,
clear the close flag, rebuild the header through the hop-by-hop filter,
restore Host, default the URL scheme to http, and normalize User-Agent.
`req.UserAgent()` reads the header already replaced by the filtered
copy, exactly as the source does. -/
def prepareRequest (req : PRequest) : PRequest :=
  let req1 : PRequest :=
    { req with proto := "HTTP/1.1", protoMajor := 1, protoMinor := 1, close := false }
  let newHeader := hdrSet (copyHeadersForForwarding req1.header) "Host" req1.host
  let req2 : PRequest := { req1 with header := newHeader }
  let req3 : PRequest :=
    { req2 with
      urlScheme := if req2.urlScheme = "" then "http" else req2.urlScheme,
      urlHost := req2.host }
  let userAgent := hdrGet req3.header "User-Agent"
  if userAgent = "" then { req3 with header := hdrDel req3.header "User-Agent" }
  else { req3 with header := hdrSet req3.header "User-Agent" userAgent }

/-- Response embedding: the fields of `http.Response` that
`writeResponse` and `prepareResponse` read or write. -/
structure PResponse where
  statusCode : Nat
  protoMajor : Nat
  protoMinor : Nat
  header : Header
  transferEncoding : List String

/-- Embeds `http.Response.ProtoAtLeast`. -/
def protoAtLeast (r : PResponse) (major minor : Nat) : Bool :=
  r.protoMajor > major || (r.protoMajor == major && r.protoMinor >= minor)

/-- Embeds `prepareResponse` (src/proxy_http.go:326-339); `now` is the
current time already formatted as RFC 850. -/
def prepareResponse (now : String) (resp : PResponse) (belowHTTP11 : Bool) : PResponse :=
  let h := copyHeadersForForwarding resp.header
  let h := if hdrGet h "Date" = "" then hdrSet h "Date" now else h
  let resp1 : PResponse := { resp with header := h }
  if belowHTTP11 then { resp1 with transferEncoding := [] } else resp1

/-- Result of `writeResponse`: whether the body was written to
`ioutil.Discard` instead of the downstream, and the response as it was
serialized. -/
structure WriteResult where
  discarded : Bool
  resp : PResponse

/-- Embeds `writeResponse` (src/proxy_http.go:259-287).
`addIdleKeepAlive` lives in a repository file outside src/ and only
touches the header map, so it is taken as an opaque parameter. -/
def writeResponse (now : String) (addIdleKeepAlive : Header → Header)
    (resp : PResponse) : WriteResult :=
  let resp1 :=
    if resp.protoMajor = 0 then { resp with protoMajor := 1, protoMinor := 1 } else resp
  let belowHTTP11 := !protoAtLeast resp1 1 1
  if belowHTTP11 && decide (resp1.statusCode < 200) then
    { discarded := true, resp := resp1 }
  else
    let resp2 := prepareResponse now resp1 belowHTTP11
    { discarded := false, resp := { resp2 with header := addIdleKeepAlive resp2.header } }

/-- Go error embedding: identity with `io.EOF`, whether it implements
`net.Error` and its `Timeout()`, and its `Error()` message. -/
structure GoErr where
  isEOF : Bool
  isNetError : Bool
  timeout : Bool
  msg : String
deriving DecidableEq

/-- Embeds `strings.HasSuffix`. -/
def goHasSuffix (s pat : String) : Bool :=
  decide (pat.data <:+ s.data)

/-- Embeds `strings.Contains`. -/
def goContains (s pat : String) : Bool :=
  decide (pat.data <:+: s.data)

/-- Embeds `isUnexpected` (src/proxy_http.go:387-409); a Go `nil` error
is `none`. -/
def isUnexpected (err : Option GoErr) : Bool :=
  match err with
  | none => false
  | some e =>
    if e.isEOF then false
    else if e.isNetError && e.timeout then false
    else
      !goHasSuffix e.msg "EOF" &&
      !goContains e.msg "i/o timeout" &&
      !goContains e.msg "Use of idled network connection" &&
      !goContains e.msg "use of closed network connection" &&
      !goContains e.msg "broken pipe" &&
      !goContains e.msg "connection reset by peer"

/-- Externally observable events of the CONNECT machinery, in the order
the source performs them: an origin dial attempt (`proxy.Dial`), a
response written downstream (`writeResponse` with the given status),
buffer pool traffic (`BufferSource.Get`/`Put`, buffers named 0 for
`bufOut` and 1 for `bufIn`), the replay of already-consumed MITM bytes
to upstream (`io.CopyBuffer`), the bidirectional pipe
(`netx.BidiCopy`), and re-entry into the HTTP loop (`proxy.handle`). -/
inductive Event where
  | dialAttempt
  | wroteResp (status : Nat)
  | getBuf (b : Nat)
  | putBuf (b : Nat)
  | replayToUpstream
  | bidiPipe
  | reenterHTTP
deriving DecidableEq

/-- Return value taken by `proceedWithConnect`, one constructor per
return statement of the source. -/
inductive ProceedOutcome where
  | dialFailed
  | mitmFailed
  | handshakeFailed
  | overflowAborted
  | reenteredHTTP
  | replayFailed
  | pipeDownstreamErr
  | pipeUpstreamErr
  | ok
deriving DecidableEq

/-- Environment of one tunnel: the results of the external calls made by
`proceedWithConnect`.  Only the presence of each error steers the
source's control flow, so each is recorded as a Bool: whether the MITM
interceptor failed, whether `mitming` held, whether the upstream TLS
handshake failed, whether the replayable reader overflowed, whether the
HTTP parse attempt succeeded, whether the replay copy failed, and the
`isUnexpected` classification of the two terminal pipe errors. -/
structure MitmConfig where
  mitmEnabled : Bool
  mitmFails : Bool
  mitming : Bool
  handshakeFails : Bool
  overflow : Bool
  parseOK : Bool
  replayFails : Bool
  pipeReadUnexpected : Bool
  pipeWriteUnexpected : Bool

/-- Arguments of `proceedWithConnect`: whether an upstream connection
was already recorded in the context, whether the proxy dial function
would fail, and the tunnel environment. -/
structure ProceedConfig where
  upstreamSet : Bool
  dialFails : Bool
  mitm : MitmConfig

/-- Classification of the two terminal errors of `netx.BidiCopy`
(src/proxy_connect.go:180-186): the read error is checked first, each
through `isUnexpected` (whose verdict the environment supplies). -/
def pipeOutcome (c : ProceedConfig) : ProceedOutcome :=
  if c.mitm.pipeReadUnexpected then ProceedOutcome.pipeDownstreamErr
  else if c.mitm.pipeWriteUnexpected then ProceedOutcome.pipeUpstreamErr
  else ProceedOutcome.ok

/-- Embeds the pipe phase of `proceedWithConnect`
(src/proxy_connect.go:164-186): two buffers are taken from the buffer
source, both returned by deferred `Put`s (last in, first out) on every
return; when a rereader is present (`rr != nil`, i.e. the MITM parse
attempt failed without overflow) the already-consumed bytes are first
copied to upstream, and a copy failure returns before the pipe starts. -/
def pipePhase (rrSet : Bool) (c : ProceedConfig) : List Event × ProceedOutcome :=
  let getE := [Event.getBuf 0, Event.getBuf 1]
  let putE := [Event.putBuf 1, Event.putBuf 0]
  if rrSet then
    if c.mitm.replayFails then
      (getE ++ [Event.replayToUpstream] ++ putE, ProceedOutcome.replayFailed)
    else
      (getE ++ [Event.replayToUpstream] ++ [Event.bidiPipe] ++ putE, pipeOutcome c)
  else
    (getE ++ [Event.bidiPipe] ++ putE, pipeOutcome c)

/-- Embeds `proceedWithConnect` after the upstream connection exists
(src/proxy_connect.go:120-186): the optional MITM attempt, the TLS
handshake when `mitming`, the attempt to parse an HTTP request from the
decrypted downstream through a 65536-byte replayable reader, the HTTP
re-entry on parse success, and otherwise the pipe phase, with the
rereader present exactly when `mitming` held and the parse failed
without overflowing. -/
def proceedAfterDial (c : ProceedConfig) : List Event × ProceedOutcome :=
  if c.mitm.mitmEnabled then
    if c.mitm.mitmFails then ([], ProceedOutcome.mitmFailed)
    else if c.mitm.mitming then
      if c.mitm.handshakeFails then ([], ProceedOutcome.handshakeFailed)
      else if c.mitm.overflow then ([], ProceedOutcome.overflowAborted)
      else if c.mitm.parseOK then ([Event.reenterHTTP], ProceedOutcome.reenteredHTTP)
      else pipePhase true c
    else pipePhase false c
  else pipePhase false c

/-- Embeds `proceedWithConnect` (src/proxy_connect.go:106-187): when no
upstream connection was recorded in the context it is dialed first, and
a dial failure returns the dial error unchanged. -/
def proceedWithConnect (c : ProceedConfig) : List Event × ProceedOutcome :=
  if c.upstreamSet then proceedAfterDial c
  else if c.dialFails then ([Event.dialAttempt], ProceedOutcome.dialFailed)
  else
    let r := proceedAfterDial c
    (Event.dialAttempt :: r.1, r.2)

/-- Return value of the `filters.Next` installed by `nextCONNECT`: the
short-circuited response status if any, whether the returned context
carries the upstream address and the upstream connection, the returned
error, whether the `return nil, ctx, err` statement (the branch without
a synthesized 502) was taken, and the events performed. -/
structure NextConnectResult where
  resp : Option Nat
  upstreamAddrSet : Bool
  upstreamConnSet : Bool
  errReturned : Bool
  rawDialError : Bool
  events : List Event

/-- Embeds `nextCONNECT` (src/proxy_connect.go:48-99).  `filters.Fail`
and `filters.ShortCircuit` are repository code outside src/; modelled
from the spec, `ShortCircuit` makes the given response the filter
result and `Fail` produces a response with the given status (502 at the
`badGateway` call site) plus the error.  In eager-OK mode the function
returns before any dial; in wait-for-upstream mode it dials first and a
failure takes the `badGateway` path (which returns the original `ctx`,
so no upstream marker is set), while success records the upstream
connection in the context. -/
def nextCONNECT (okWaitsForUpstream suppressOK dialFails : Bool) :
    NextConnectResult :=
  if !okWaitsForUpstream then
    { resp := if suppressOK then none else some 200
      upstreamAddrSet := true
      upstreamConnSet := false
      errReturned := false
      rawDialError := false
      events := [] }
  else if dialFails then
    if okWaitsForUpstream then
      { resp := some 502
        upstreamAddrSet := false
        upstreamConnSet := false
        errReturned := true
        rawDialError := false
        events := [Event.dialAttempt] }
    else
      { resp := none
        upstreamAddrSet := false
        upstreamConnSet := false
        errReturned := true
        rawDialError := true
        events := [Event.dialAttempt] }
  else
    { resp := if suppressOK then none else some 200
      upstreamAddrSet := true
      upstreamConnSet := true
      errReturned := false
      rawDialError := false
      events := [Event.dialAttempt] }

/-- Configuration of one CONNECT request handled by the request loop:
the `OKWaitsForUpstream` option, the suppress-OK context marker, the
dial result for the origin, the result of writing the filter response
downstream, and the tunnel environment. -/
structure SessionConfig where
  okWaitsForUpstream : Bool
  suppressOK : Bool
  dialFails : Bool
  writeFails : Bool
  tunnel : MitmConfig

/-- Embeds the iteration of `processRequests`
(src/proxy_http.go:150-226) that handles a CONNECT request with the
default pass-through filter: the terminal `next` is `nextCONNECT`; a
non-nil response is written downstream (a write failure returns before
the tunnel); then, if the context carries an upstream connection or
address, the loop hands off to `proceedWithConnect`. -/
def connectSession (s : SessionConfig) : List Event :=
  let r := nextCONNECT s.okWaitsForUpstream s.suppressOK s.dialFails
  let isConnect := r.upstreamConnSet || r.upstreamAddrSet
  let tunnelTrace :=
    if isConnect then
      (proceedWithConnect
        { upstreamSet := r.upstreamConnSet, dialFails := s.dialFails, mitm := s.tunnel }).1
    else []
  match r.resp with
  | some status =>
    if s.writeFails then r.events ++ [Event.wroteResp status]
    else r.events ++ [Event.wroteResp status] ++ tunnelTrace
  | none => r.events ++ tunnelTrace

/-- Buffer identities passed to `BufferSource.Get`, in call order. -/
def bufGets (tr : List Event) : List Nat :=
  tr.filterMap fun e =>
    match e with
    | Event.getBuf b => some b
    | _ => none

/-- Buffer identities passed to `BufferSource.Put`, in call order. -/
def bufPuts (tr : List Event) : List Nat :=
  tr.filterMap fun e =>
    match e with
    | Event.putBuf b => some b
    | _ => none

/-- Ordering of observable events: every occurrence of `b` in the trace
is preceded by an occurrence of `a`. -/
def precedes (a b : Event) (tr : List Event) : Prop :=
  ∀ j : Fin tr.length, tr.get j = b →
    ∃ i : Fin tr.length, (i : Nat) < (j : Nat) ∧ tr.get i = a

instance (a b : Event) (tr : List Event) : Decidable (precedes a b tr) := by
  unfold precedes
  infer_instance

/-- Type of `filters.Next`: a function from context and request to
response (possibly nil), context, and error. -/
def FNext (Ctx Req Resp Err : Type) : Type :=
  Ctx → Req → Option Resp × Ctx × Option Err

/-- Type of `filters.Filter` as used by the engine: `Apply` takes the
context, the request and the next handler. -/
def PFilter (Ctx Req Resp Err : Type) : Type :=
  Ctx → Req → FNext Ctx Req Resp Err → Option Resp × Ctx × Option Err

/-- Modelled from the spec: `filters.Join(outer, inner)` lives in the
repository's filters package outside src/; per the spec, chains compose
so that the outer filter receives a `next` that, when invoked, calls the
inner filter (with the original terminal `next`). -/
def filtersJoin {Ctx Req Resp Err : Type} (outer inner : PFilter Ctx Req Resp Err) :
    PFilter Ctx Req Resp Err :=
  fun ctx req next => outer ctx req (fun c r => inner c r next)

/-- Embeds the anonymous filter that `applyHTTPDefaults` prepends when
`IdleTimeout > 0` (src/proxy_http.go:30-32): it calls `next` with its
arguments unchanged. -/
def idleTimeoutWrapper {Ctx Req Resp Err : Type} : PFilter Ctx Req Resp Err :=
  fun ctx req next => next ctx req

/-- Embeds `defaultFilter` (src/proxy_http.go:411-413). -/
def defaultFilter {Ctx Req Resp Err : Type} : PFilter Ctx Req Resp Err :=
  fun ctx req next => next ctx req

/-- Options fields read by `applyHTTPDefaults`: the configured filter
(nil when unset) and the idle timeout (a duration; only its positivity
is branched on). -/
structure HttpOpts (Ctx Req Resp Err : Type) where
  filter : Option (PFilter Ctx Req Resp Err)
  idleTimeout : Nat

/-- Embeds `applyHTTPDefaults` (src/proxy_http.go:21-34), returning the
filter the options hold after the call: the default filter is installed
when none is set, and when `IdleTimeout > 0` the pass-through wrapper is
joined in front of the chain as the outermost filter. -/
def applyHTTPDefaults {Ctx Req Resp Err : Type} (o : HttpOpts Ctx Req Resp Err) :
    PFilter Ctx Req Resp Err :=
  let f := match o.filter with
    | none => defaultFilter
    | some f => f
  if 0 < o.idleTimeout then filtersJoin idleTimeoutWrapper f else f

/-- Sample filter used to instantiate the C8 theorem at a concrete
input. -/
def sampleFilter : PFilter Nat Nat Nat Nat :=
  fun ctx _ next => next (ctx + 1) 7

/-- Sample terminal handler used to instantiate the C8 theorem at a
concrete input. -/
def sampleNext : FNext Nat Nat Nat Nat :=
  fun ctx req => (some (ctx + req), ctx, none)

/-- Tunnel environment with MITM disabled and error-free pipe. -/
def mitmOff : MitmConfig :=
  { mitmEnabled := false
    mitmFails := false
    mitming := false
    handshakeFails := false
    overflow := false
    parseOK := false
    replayFails := false
    pipeReadUnexpected := false
    pipeWriteUnexpected := false }

/-- Concrete eager-OK CONNECT session: OK is not suppressed, the write
succeeds, MITM is off. -/
def sEager : SessionConfig :=
  { okWaitsForUpstream := false
    suppressOK := false
    dialFails := false
    writeFails := false
    tunnel := mitmOff }

/-- Concrete wait-for-upstream CONNECT session whose origin dial
fails. -/
def sWait : SessionConfig :=
  { okWaitsForUpstream := true
    suppressOK := false
    dialFails := true
    writeFails := false
    tunnel := mitmOff }

/-- Concrete MITM tunnel whose HTTP parse attempt fails without
overflow. -/
def cMitm : ProceedConfig :=
  { upstreamSet := true
    dialFails := false
    mitm :=
      { mitmEnabled := true
        mitmFails := false
        mitming := true
        handshakeFails := false
        overflow := false
        parseOK := false
        replayFails := false
        pipeReadUnexpected := false
        pipeWriteUnexpected := false } }

/-- Concrete response with `ProtoMajor = 0`, a sub-200 status and a
chunked transfer encoding, used to instantiate the C10 theorem. -/
def respProto0 : PResponse :=
  { statusCode := 101
    protoMajor := 0
    protoMinor := 0
    header := []
    transferEncoding := ["chunked"] }

/-- Concrete request whose Connection header names User-Agent and is
iterated first, so the hop-by-hop filter drops the User-Agent header
before `prepareRequest` consults it. -/
def reqUADropped : PRequest :=
  { header := [("Connection", ["User-Agent"]), ("User-Agent", ["foo"])]
    host := "h"
    urlScheme := ""
    urlHost := ""
    proto := "HTTP/1.1"
    protoMajor := 1
    protoMinor := 1
    close := false }

theorem find?_hdrDel (h : Header) (k : String) :
    List.find? (fun e => e.1 == k) (hdrDel h k) = none := by
  rw [List.find?_eq_none]
  intro x hx
  rw [hdrDel, List.mem_filter] at hx
  simpa using hx.2

theorem hdrLookup_hdrDel (h : Header) (k : String) :
    hdrLookup (hdrDel h k) k = none := by
  rw [hdrLookup, find?_hdrDel]
  rfl

theorem hdrGet_hdrSet (h : Header) (k v : String) :
    hdrGet (hdrSet h k v) k = v := by
  rw [hdrGet, hdrLookup, hdrSet, List.find?_append, find?_hdrDel]
  simp [List.find?]

theorem precedes_head (a b : Event) (rest : List Event) (hne : a ≠ b) :
    precedes a b (a :: rest) := by
  intro j hj
  refine ⟨⟨0, Nat.succ_pos rest.length⟩, ?_, rfl⟩
  rcases j with ⟨jv, hlt⟩
  cases jv with
  | zero => exact absurd hj hne
  | succ n => exact Nat.succ_pos n

theorem proceedWithConnect_dial_mem (c : ProceedConfig) (h : c.upstreamSet = false) :
    Event.dialAttempt ∈ (proceedWithConnect c).1 := by
  obtain ⟨us, df, m⟩ := c
  replace h : us = false := h
  subst h
  cases df <;> exact List.mem_cons_self _ _

theorem mem_dial_w502 :
    Event.wroteResp 502 ∈ [Event.dialAttempt, Event.wroteResp 502] := by
  decide

theorem notmem_w200_dial_w502 :
    Event.wroteResp 200 ∉ [Event.dialAttempt, Event.wroteResp 502] := by
  decide

/-- Claim C1 (falsified, code bug): the source means to forward no
hop-by-hop header and no header named in the Connection header
regardless of map iteration order, but `extraHopByHopHeaders` is only
populated once the iteration reaches the `Connection` key: with the
iteration order placing `X-Foo` before `Connection: X-Foo` the header
`X-Foo` is forwarded, while the reverse order drops it. -/
theorem copyHeadersForForwarding_order_dependent :
    hdrLookup (copyHeadersForForwarding
        [("X-Foo", ["drop"]), ("Connection", ["X-Foo"])]) "X-Foo" = some ["drop"] ∧
      hdrLookup (copyHeadersForForwarding
        [("Connection", ["X-Foo"]), ("X-Foo", ["drop"])]) "X-Foo" = none := by
  decide

/-- Claim C2: for every CONNECT handled in eager-OK mode
(`OKWaitsForUpstream = false`) without the suppress-OK marker, a 200
response is written to the client first, before any origin dial is
attempted; a dial can only happen afterwards, in the tunnel phase. -/
theorem connect_eagerOK_writes_ok_before_dial (s : SessionConfig)
    (hok : s.okWaitsForUpstream = false) (hsup : s.suppressOK = false) :
    (connectSession s).head? = some (Event.wroteResp 200) ∧
      precedes (Event.wroteResp 200) Event.dialAttempt (connectSession s) ∧
      (s.writeFails = false → Event.dialAttempt ∈ connectSession s) := by
  obtain ⟨ok, sup, df, wf, m⟩ := s
  replace hok : ok = false := hok
  replace hsup : sup = false := hsup
  subst hok
  subst hsup
  cases wf
  · refine ⟨rfl, precedes_head _ _ _ (by decide), fun _ => ?_⟩
    exact List.mem_cons_of_mem _ (proceedWithConnect_dial_mem ⟨false, df, m⟩ rfl)
  · refine ⟨rfl, precedes_head _ _ _ (by decide), fun h => ?_⟩
    exact Bool.noConfusion h

/-- Witness for claim C2 at a concrete eager-OK session. -/
theorem connect_eagerOK_witness :
    (connectSession sEager).head? = some (Event.wroteResp 200) ∧
      precedes (Event.wroteResp 200) Event.dialAttempt (connectSession sEager) ∧
      (sEager.writeFails = false → Event.dialAttempt ∈ connectSession sEager) :=
  connect_eagerOK_writes_ok_before_dial sEager rfl rfl

/-- Claim C3: for every CONNECT handled in wait-for-upstream mode
(`OKWaitsForUpstream = true`) whose origin dial fails, a 502 Bad
Gateway response is sent to the client and no 200 response is ever
emitted for that CONNECT. -/
theorem connect_waitMode_dial_failure_502 (s : SessionConfig)
    (hok : s.okWaitsForUpstream = true) (hde : s.dialFails = true) :
    Event.wroteResp 502 ∈ connectSession s ∧ Event.wroteResp 200 ∉ connectSession s := by
  obtain ⟨ok, sup, df, wf, m⟩ := s
  replace hok : ok = true := hok
  replace hde : df = true := hde
  subst hok
  subst hde
  cases wf <;> exact ⟨mem_dial_w502, notmem_w200_dial_w502⟩

/-- Witness for claim C3 at a concrete failing dial. -/
theorem connect_waitMode_witness :
    Event.wroteResp 502 ∈ connectSession sWait ∧
      Event.wroteResp 200 ∉ connectSession sWait :=
  connect_waitMode_dial_failure_502 sWait rfl rfl

/-- Claim C9: the branch of `nextCONNECT` that returns the raw dial
error without synthesizing a 502 is unreachable: the dial only happens
when `OKWaitsForUpstream` is true, so every dial failure takes the
`badGateway` path. -/
theorem nextCONNECT_raw_error_unreachable (ok sup dialFails : Bool) :
    (nextCONNECT ok sup dialFails).rawDialError = false := by
  cases ok
  · rfl
  · cases dialFails <;> rfl

theorem replay_trace_props1 :
    Event.replayToUpstream ∈
        [Event.getBuf 0, Event.getBuf 1, Event.replayToUpstream,
          Event.putBuf 1, Event.putBuf 0] ∧
      precedes Event.replayToUpstream Event.bidiPipe
        [Event.getBuf 0, Event.getBuf 1, Event.replayToUpstream,
          Event.putBuf 1, Event.putBuf 0] ∧
      Event.bidiPipe ∉
        [Event.getBuf 0, Event.getBuf 1, Event.replayToUpstream,
          Event.putBuf 1, Event.putBuf 0] := by
  decide

theorem replay_trace_props2 :
    Event.replayToUpstream ∈
        [Event.getBuf 0, Event.getBuf 1, Event.replayToUpstream, Event.bidiPipe,
          Event.putBuf 1, Event.putBuf 0] ∧
      precedes Event.replayToUpstream Event.bidiPipe
        [Event.getBuf 0, Event.getBuf 1, Event.replayToUpstream, Event.bidiPipe,
          Event.putBuf 1, Event.putBuf 0] := by
  decide

theorem replay_trace_props3 :
    Event.replayToUpstream ∈
        [Event.dialAttempt, Event.getBuf 0, Event.getBuf 1, Event.replayToUpstream,
          Event.putBuf 1, Event.putBuf 0] ∧
      precedes Event.replayToUpstream Event.bidiPipe
        [Event.dialAttempt, Event.getBuf 0, Event.getBuf 1, Event.replayToUpstream,
          Event.putBuf 1, Event.putBuf 0] ∧
      Event.bidiPipe ∉
        [Event.dialAttempt, Event.getBuf 0, Event.getBuf 1, Event.replayToUpstream,
          Event.putBuf 1, Event.putBuf 0] := by
  decide

theorem replay_trace_props4 :
    Event.replayToUpstream ∈
        [Event.dialAttempt, Event.getBuf 0, Event.getBuf 1, Event.replayToUpstream,
          Event.bidiPipe, Event.putBuf 1, Event.putBuf 0] ∧
      precedes Event.replayToUpstream Event.bidiPipe
        [Event.dialAttempt, Event.getBuf 0, Event.getBuf 1, Event.replayToUpstream,
          Event.bidiPipe, Event.putBuf 1, Event.putBuf 0] := by
  decide

/-- Claim C5: in every MITM'ed CONNECT tunnel whose HTTP parse attempt
fails for a reason other than buffer overflow, the bytes already
consumed by the parse attempt are copied to upstream before the
bidirectional pipe starts (and if that copy fails, the pipe never
starts). -/
theorem mitm_parse_failure_replays_before_pipe (c : ProceedConfig)
    (hen : c.mitm.mitmEnabled = true) (hmf : c.mitm.mitmFails = false)
    (hmi : c.mitm.mitming = true) (hhs : c.mitm.handshakeFails = false)
    (hov : c.mitm.overflow = false) (hpk : c.mitm.parseOK = false)
    (hreach : c.upstreamSet = true ∨ c.dialFails = false) :
    Event.replayToUpstream ∈ (proceedWithConnect c).1 ∧
      precedes Event.replayToUpstream Event.bidiPipe (proceedWithConnect c).1 ∧
      (Event.bidiPipe ∈ (proceedWithConnect c).1 → c.mitm.replayFails = false) := by
  obtain ⟨us, df, m⟩ := c
  obtain ⟨me, mf, mi, hf, ov, pok, rf, pr, pw⟩ := m
  replace hen : me = true := hen
  replace hmf : mf = false := hmf
  replace hmi : mi = true := hmi
  replace hhs : hf = false := hhs
  replace hov : ov = false := hov
  replace hpk : pok = false := hpk
  subst hen hmf hmi hhs hov hpk
  rcases hreach with h | h
  · replace h : us = true := h
    subst h
    cases rf
    · obtain ⟨h1, h2⟩ := replay_trace_props2
      exact ⟨h1, h2, fun _ => rfl⟩
    · obtain ⟨h1, h2, h3⟩ := replay_trace_props1
      exact ⟨h1, h2, fun hb => absurd hb h3⟩
  · replace h : df = false := h
    subst h
    cases us
    · cases rf
      · obtain ⟨h1, h2⟩ := replay_trace_props4
        exact ⟨h1, h2, fun _ => rfl⟩
      · obtain ⟨h1, h2, h3⟩ := replay_trace_props3
        exact ⟨h1, h2, fun hb => absurd hb h3⟩
    · cases rf
      · obtain ⟨h1, h2⟩ := replay_trace_props2
        exact ⟨h1, h2, fun _ => rfl⟩
      · obtain ⟨h1, h2, h3⟩ := replay_trace_props1
        exact ⟨h1, h2, fun hb => absurd hb h3⟩

/-- Witness for claim C5 at a concrete MITM tunnel whose parse attempt
failed without overflow. -/
theorem mitm_replay_witness :
    Event.replayToUpstream ∈ (proceedWithConnect cMitm).1 ∧
      precedes Event.replayToUpstream Event.bidiPipe (proceedWithConnect cMitm).1 ∧
      (Event.bidiPipe ∈ (proceedWithConnect cMitm).1 → cMitm.mitm.replayFails = false) :=
  mitm_parse_failure_replays_before_pipe cMitm rfl rfl rfl rfl rfl rfl (Or.inl rfl)

theorem permNil01 : List.Perm ([] : List Nat) [] := List.Perm.nil

theorem permGetsPuts : List.Perm [0, 1] [1, 0] := by
  decide

theorem buffers_balanced_afterDial (c : ProceedConfig) :
    List.Perm (bufGets (proceedAfterDial c).1) (bufPuts (proceedAfterDial c).1) := by
  obtain ⟨us, df, m⟩ := c
  obtain ⟨me, mf, mi, hf, ov, pok, rf, pr, pw⟩ := m
  cases me <;> cases mf <;> cases mi <;> cases hf <;> cases ov <;> cases pok <;> cases rf <;>
    first
      | exact permGetsPuts
      | exact permNil01

/-- Claim C6: in `proceedWithConnect` every `BufferSource.Get` is
matched by exactly one `BufferSource.Put` of the same buffer on every
exit path: the multiset of buffers taken equals the multiset of buffers
returned (empty on the MITM-HTTP re-entry and early-abort paths, both
buffers on the replay-error and pipe paths). -/
theorem proceedWithConnect_buffers_balanced (c : ProceedConfig) :
    List.Perm (bufGets (proceedWithConnect c).1) (bufPuts (proceedWithConnect c).1) := by
  obtain ⟨us, df, m⟩ := c
  cases us
  · cases df
    · exact buffers_balanced_afterDial ⟨false, false, m⟩
    · exact permNil01
  · exact buffers_balanced_afterDial ⟨true, df, m⟩

/-- Claim C4: `isUnexpected` returns false exactly for nil errors,
`io.EOF`, net.Errors whose Timeout() is true, and errors whose message
ends in EOF or contains one of the five peer-close substrings; it
returns true for every other error. -/
theorem isUnexpected_false_iff (err : Option GoErr) :
    isUnexpected err = false ↔
      err = none ∨
        ∃ e, err = some e ∧
          (e.isEOF = true ∨ (e.isNetError = true ∧ e.timeout = true) ∨
            "EOF".data <:+ e.msg.data ∨
            "i/o timeout".data <:+: e.msg.data ∨
            "use of closed network connection".data <:+: e.msg.data ∨
            "Use of idled network connection".data <:+: e.msg.data ∨
            "broken pipe".data <:+: e.msg.data ∨
            "connection reset by peer".data <:+: e.msg.data) := by
  cases err with
  | none => simp [isUnexpected]
  | some e =>
    simp only [isUnexpected, goHasSuffix, goContains]
    split_ifs with h1 h2
    · exact iff_of_true rfl (Or.inr ⟨e, rfl, Or.inl h1⟩)
    · rw [Bool.and_eq_true] at h2
      exact iff_of_true rfl (Or.inr ⟨e, rfl, Or.inr (Or.inl h2)⟩)
    · constructor
      · intro hfalse
        refine Or.inr ⟨e, rfl, ?_⟩
        by_contra hno
        push_neg at hno
        obtain ⟨k1, k2, n1, n2, n3, n4, n5, n6⟩ := hno
        rw [decide_eq_false n1, decide_eq_false n2, decide_eq_false n3,
          decide_eq_false n4, decide_eq_false n5, decide_eq_false n6] at hfalse
        simp at hfalse
      · rintro (hnone | ⟨e1, he, hd⟩)
        · exact hnone.elim
        · injection he with he1
          subst he1
          rcases hd with hd | hd | hd | hd | hd | hd | hd | hd
          · exact absurd hd h1
          · refine absurd ?_ h2
            rw [Bool.and_eq_true]
            exact hd
          · simp [hd]
          · simp [hd]
          · simp [hd]
          · simp [hd]
          · simp [hd]
          · simp [hd]

/-- Claim C7 counterexample: for the request whose Connection header
names User-Agent and is iterated first, the incoming User-Agent value
is the non-empty string foo, yet the prepared request carries no
User-Agent header at all, contradicting the claim that a non-empty
incoming value is set explicitly on the outgoing request. -/
theorem prepareRequest_userAgent_counterexample :
    hdrGet reqUADropped.header "User-Agent" = "foo" ∧
      hdrLookup (prepareRequest reqUADropped).header "User-Agent" = none := by
  decide

/-- Claim C7 (amended): the User-Agent header of a prepared request is
either absent or present with a non-empty value; the value consulted is
the User-Agent surviving the hop-by-hop filter (so it can be absent
even though the incoming value was non-empty, when the Connection
header names User-Agent and is processed first): if the surviving value
is empty the header is deleted, otherwise it is set explicitly to that
surviving value. -/
theorem prepareRequest_userAgent_absent_or_nonempty (req : PRequest) :
    (hdrLookup (prepareRequest req).header "User-Agent" = none ∨
      hdrGet (prepareRequest req).header "User-Agent" ≠ "") ∧
      (hdrGet (hdrSet (copyHeadersForForwarding req.header) "Host" req.host) "User-Agent" = "" →
        hdrLookup (prepareRequest req).header "User-Agent" = none) ∧
      (hdrGet (hdrSet (copyHeadersForForwarding req.header) "Host" req.host) "User-Agent" ≠ "" →
        hdrGet (prepareRequest req).header "User-Agent" =
          hdrGet (hdrSet (copyHeadersForForwarding req.header) "Host" req.host) "User-Agent") := by
  by_cases h : hdrGet (hdrSet (copyHeadersForForwarding req.header) "Host" req.host) "User-Agent" = ""
  · have hform : (prepareRequest req).header =
        hdrDel (hdrSet (copyHeadersForForwarding req.header) "Host" req.host) "User-Agent" := by
      simp [prepareRequest, h]
    rw [hform]
    exact ⟨Or.inl (hdrLookup_hdrDel _ _), fun _ => hdrLookup_hdrDel _ _, fun hne => absurd h hne⟩
  · have hform : (prepareRequest req).header =
        hdrSet (hdrSet (copyHeadersForForwarding req.header) "Host" req.host) "User-Agent"
          (hdrGet (hdrSet (copyHeadersForForwarding req.header) "Host" req.host) "User-Agent") := by
      simp [prepareRequest, h]
    rw [hform]
    refine ⟨Or.inr ?_, fun hc => absurd hc h, fun _ => hdrGet_hdrSet _ _ _⟩
    rw [hdrGet_hdrSet]
    exact h

/-- Claim C8: when `IdleTimeout > 0`, the wrapper that
`applyHTTPDefaults` prepends as the outermost filter is behaviorally
the identity, so the joined chain is extensionally equal to the
configured filter for every context, request and next handler. -/
theorem applyHTTPDefaults_idle_wrapper_identity {Ctx Req Resp Err : Type}
    (o : HttpOpts Ctx Req Resp Err) (F : PFilter Ctx Req Resp Err)
    (hT : 0 < o.idleTimeout) (hF : o.filter = some F)
    (ctx : Ctx) (req : Req) (next : FNext Ctx Req Resp Err) :
    applyHTTPDefaults o ctx req next = F ctx req next := by
  obtain ⟨f, t⟩ := o
  replace hT : 0 < t := hT
  replace hF : f = some F := hF
  subst hF
  simp [applyHTTPDefaults, filtersJoin, idleTimeoutWrapper, hT]

/-- Witness for claim C8 at concrete types, filter, and arguments. -/
theorem applyHTTPDefaults_idle_wrapper_identity_witness :
    applyHTTPDefaults { filter := some sampleFilter, idleTimeout := 1 } 0 3 sampleNext =
      sampleFilter 0 3 sampleNext :=
  applyHTTPDefaults_idle_wrapper_identity { filter := some sampleFilter, idleTimeout := 1 }
    sampleFilter Nat.one_pos rfl 0 3 sampleNext

/-- Claim C10: `writeResponse` treats a response with `ProtoMajor = 0`
as HTTP/1.1 (setting major and minor to 1 before the version check), so
it is never discarded by the sub-200 HTTP/1.0 rule and its transfer
encoding is never cleared. -/
theorem writeResponse_protoMajorZero_http11 (now : String) (addIdle : Header → Header)
    (resp : PResponse) (h : resp.protoMajor = 0) :
    (writeResponse now addIdle resp).discarded = false ∧
      (writeResponse now addIdle resp).resp.transferEncoding = resp.transferEncoding ∧
      (writeResponse now addIdle resp).resp.protoMajor = 1 ∧
      (writeResponse now addIdle resp).resp.protoMinor = 1 := by
  obtain ⟨sc, pM, pm, hd, te⟩ := resp
  replace h : pM = 0 := h
  subst h
  refine ⟨?_, ?_, ?_, ?_⟩ <;> simp [writeResponse, protoAtLeast, prepareResponse]

/-- Witness for claim C10 at a concrete sub-200 response with
`ProtoMajor = 0` and a chunked transfer encoding. -/
theorem writeResponse_protoMajorZero_witness :
    (writeResponse "now" id respProto0).discarded = false ∧
      (writeResponse "now" id respProto0).resp.transferEncoding = respProto0.transferEncoding ∧
      (writeResponse "now" id respProto0).resp.protoMajor = 1 ∧
      (writeResponse "now" id respProto0).resp.protoMinor = 1 :=
  writeResponse_protoMajorZero_http11 "now" id respProto0 rfl
